import Mathlib

/-!
Verification development for the Pendulum-Simulator repository.

The physical / simulation parameters, their validation, and the
fixed-timestep integration engine are embedded shallowly:

* time-like and parameter quantities are rationals (the comparisons the
  loop makes on them are decidable and executable),
* kinematic quantities (angle, angular velocity) are reals, since the
  dynamics involve Real.sin.

Sources embedded:
* context provider (SimulatorContext): parameter record, minimum-safe
  clamping on every write, defaults, reset;
* PendulumVisualization: canvas-scaled pendulum length, the fixed-step
  accumulator loop, the semi-implicit Euler branch (damping = 0) and the
  RK4 branch (damping different from 0).
-/

open Real

/-- The `SimulatorParams` record of SimulatorContext: physical/simulation
configuration plus the mirrored kinematic fields `currentAngle` /
`currentVelocity` that the visualization writes back. -/
structure SimulatorParams where
  length : ℚ
  mass : ℚ
  startingAngle : ℚ
  gravity : ℚ
  damping : ℚ
  timeInterval : ℚ
  simulationSpeed : ℚ
  currentAngle : ℝ
  currentVelocity : ℝ

/-- A possibly-incomplete update of the parameter record, as passed to the
context setter (`updatedParams.field ?? prevParams.field` in the source
reads an absent field as the previous one). -/
structure ParamUpdate where
  length : Option ℚ
  mass : Option ℚ
  startingAngle : Option ℚ
  gravity : Option ℚ
  damping : Option ℚ
  timeInterval : Option ℚ
  simulationSpeed : Option ℚ
  currentAngle : Option ℝ
  currentVelocity : Option ℝ

/-- The empty update: no field provided. -/
def noUpdate : ParamUpdate :=
  { length := none, mass := none, startingAngle := none, gravity := none,
    damping := none, timeInterval := none, simulationSpeed := none,
    currentAngle := none, currentVelocity := none }

/-- `MIN_SAFE_VALUES.length` of SimulatorContext. -/
def MIN_SAFE_length : ℚ := 1
/-- `MIN_SAFE_VALUES.mass` of SimulatorContext. -/
def MIN_SAFE_mass : ℚ := 1 / 10
/-- `MIN_SAFE_VALUES.gravity` of SimulatorContext. -/
def MIN_SAFE_gravity : ℚ := 1 / 100
/-- `MIN_SAFE_VALUES.damping` of SimulatorContext. -/
def MIN_SAFE_damping : ℚ := 0
/-- `MIN_SAFE_VALUES.timeInterval` of SimulatorContext. -/
def MIN_SAFE_timeInterval : ℚ := 1 / 1000
/-- `MIN_SAFE_VALUES.simulationSpeed` of SimulatorContext. -/
def MIN_SAFE_simulationSpeed : ℚ := 1 / 10

/-- `setValidatedParams` of SimulatorContext: merge the provided fields into
the previous record, then clamp each covered numeric field to its minimum
with `Math.max(updated.field ?? prev.field, MIN_SAFE_VALUES.field)`;
`startingAngle` and the kinematic mirrors pass through unclamped. -/
def setValidatedParams (prev : SimulatorParams) (u : ParamUpdate) : SimulatorParams :=
  { length := max (u.length.getD prev.length) MIN_SAFE_length,
    mass := max (u.mass.getD prev.mass) MIN_SAFE_mass,
    startingAngle := u.startingAngle.getD prev.startingAngle,
    gravity := max (u.gravity.getD prev.gravity) MIN_SAFE_gravity,
    damping := max (u.damping.getD prev.damping) MIN_SAFE_damping,
    timeInterval := max (u.timeInterval.getD prev.timeInterval) MIN_SAFE_timeInterval,
    simulationSpeed := max (u.simulationSpeed.getD prev.simulationSpeed) MIN_SAFE_simulationSpeed,
    currentAngle := u.currentAngle.getD prev.currentAngle,
    currentVelocity := u.currentVelocity.getD prev.currentVelocity }

noncomputable section

/-- `defaultParams` of SimulatorContext. -/
def defaultParams : SimulatorParams :=
  { length := 100, mass := 1, startingAngle := 45, gravity := 9.81,
    damping := 0, timeInterval := 1 / 100, simulationSpeed := 30,
    currentAngle := (45 * π) / 180, currentVelocity := 0 }

/-- `maxLength = Math.min(canvas.width, canvas.height) * 0.8` followed by
`scaledLength = Math.max((params.length / 200) * maxLength, 1)` in the
visualization (the divisor actually used by the physics step). -/
def scaledLength (w h len : ℚ) : ℚ :=
  max ((len / 200) * (min w h * (8 / 10))) 1

/-- `Math.max(params.gravity, 0.01)` recomputed inside every integration
sub-step of the visualization. -/
def gravityFloored (g : ℚ) : ℚ := max g (1 / 100)

/-- The `acceleration` closure of the RK4 branch:
`(theta, omega) => (-gravity / scaledLength) * Math.sin(theta) - params.damping * omega`. -/
def acceleration (g L d : ℚ) (theta omega : ℝ) : ℝ :=
  (-(g : ℝ) / (L : ℝ)) * Real.sin theta - (d : ℝ) * omega

/-- The semi-implicit Euler branch (damping = 0) of one integration
sub-step: velocity is updated first, then the angle uses the new velocity.
`eff` is `dt * simulationSpeed`. State is the pair (angle, velocity). -/
def eulerStep (g L eff : ℚ) (s : ℝ × ℝ) : ℝ × ℝ :=
  let v := s.2 + (-(g : ℝ) / (L : ℝ)) * Real.sin s.1 * (eff : ℝ)
  (s.1 + v * (eff : ℝ), v)

/-- The RK4 branch (damping different from 0) of one integration sub-step,
with `effectiveDT = dt * simulationSpeed` and the source's four slope
pairs. State is the pair (angle, velocity). -/
def rk4Step (g L d eff : ℚ) (s : ℝ × ℝ) : ℝ × ℝ :=
  let e : ℝ := (eff : ℝ)
  let k1Angle := s.2
  let k1Omega := acceleration g L d s.1 s.2
  let k2Angle := s.2 + k1Omega * e / 2
  let k2Omega := acceleration g L d (s.1 + k1Angle * e / 2) (s.2 + k1Omega * e / 2)
  let k3Angle := s.2 + k2Omega * e / 2
  let k3Omega := acceleration g L d (s.1 + k2Angle * e / 2) (s.2 + k2Omega * e / 2)
  let k4Angle := s.2 + k3Omega * e
  let k4Omega := acceleration g L d (s.1 + k3Angle * e) (s.2 + k3Omega * e)
  (s.1 + (e / 6) * (k1Angle + 2 * k2Angle + 2 * k3Angle + k4Angle),
   s.2 + (e / 6) * (k1Omega + 2 * k2Omega + 2 * k3Omega + k4Omega))

/-- `const dt = Math.max(params.timeInterval, 0.001)` of the visualization. -/
def dtOf (p : SimulatorParams) : ℚ := max p.timeInterval (1 / 1000)

/-- `const simulationSpeed = Math.max(params.simulationSpeed, 0.1)` of the
visualization. -/
def speedOf (p : SimulatorParams) : ℚ := max p.simulationSpeed (1 / 10)

/-- One integration sub-step of the visualization loop body: dispatch on
`params.damping === 0` between the semi-implicit Euler branch and the RK4
branch, both dividing the re-floored gravity by the canvas-scaled length. -/
def stepOnce (p : SimulatorParams) (w h : ℚ) (s : ℝ × ℝ) : ℝ × ℝ :=
  if p.damping = 0 then
    eulerStep (gravityFloored p.gravity) (scaledLength w h p.length) (dtOf p * speedOf p) s
  else
    rk4Step (gravityFloored p.gravity) (scaledLength w h p.length) p.damping (dtOf p * speedOf p) s

/-- `while (accumulator >= dt) { step; accumulator -= dt }` of the
visualization; terminates because each iteration removes `dt > 0` from the
accumulator. -/
def advanceLoop (dt : ℚ) (hdt : 0 < dt) (step : ℝ × ℝ → ℝ × ℝ) (acc : ℚ) (s : ℝ × ℝ) :
    ℚ × (ℝ × ℝ) :=
  if h : dt ≤ acc then advanceLoop dt hdt step (acc - dt) (step s) else (acc, s)
termination_by Nat.floor (acc / dt)
decreasing_by
  have h1 : (1 : ℚ) ≤ acc / dt := (one_le_div hdt).mpr h
  have h2 : (acc - dt) / dt = acc / dt - 1 := by
    rw [sub_div, div_self (ne_of_gt hdt)]
  have h3 : Nat.floor ((acc - dt) / dt) = Nat.floor (acc / dt) - 1 := by
    rw [h2]
    exact_mod_cast Nat.floor_sub_nat (acc / dt) 1
  have h4 : 1 ≤ Nat.floor (acc / dt) := Nat.le_floor (by exact_mod_cast h1)
  omega

/-- Full simulator state: the shared parameter record, the play flag, and
the visualization's local accumulator / angle / velocity. -/
structure SimState where
  params : SimulatorParams
  isPlaying : Bool
  accumulator : ℚ
  angle : ℝ
  velocity : ℝ

/-- State at mount of the visualization effect: accumulator 0 and
`currentAngle = (params.startingAngle * Math.PI) / 180`, velocity 0; play
starts false (`useState(false)` in the provider). -/
def initEngine (p : SimulatorParams) : SimState :=
  { params := p, isPlaying := false, accumulator := 0,
    angle := ((p.startingAngle : ℝ) * π) / 180, velocity := 0 }

/-- `setIsPlaying(true)`. -/
def playSim (s : SimState) : SimState := { s with isPlaying := true }

/-- `setIsPlaying(false)`. -/
def pauseSim (s : SimState) : SimState := { s with isPlaying := false }

/-- A parameter write through the context setter together with the
visualization remount it triggers: the setter always produces a fresh
params object and the physics effect lists `params` in its dependency
array, so the effect re-runs and its locals are reinitialized — the angle
from the (possibly new) starting angle, velocity 0, accumulator 0. The
play flag lives outside the effect (read through a ref) and is kept. -/
def setSim (u : ParamUpdate) (s : SimState) : SimState :=
  { params := setValidatedParams s.params u, isPlaying := s.isPlaying,
    accumulator := 0,
    angle := (((setValidatedParams s.params u).startingAngle : ℝ) * π) / 180,
    velocity := 0 }

/-- `resetParams` of SimulatorContext combined with the visualization
remount it triggers: parameters back to the defaults with
`currentAngle = (defaultParams.startingAngle * Math.PI) / 180` and
`currentVelocity = 0`, play stopped, accumulator 0, and the kinematic
state re-derived from the (default) starting angle. -/
def resetSim (_ : SimState) : SimState :=
  { params :=
      { defaultParams with
        currentAngle := ((defaultParams.startingAngle : ℝ) * π) / 180,
        currentVelocity := 0 },
    isPlaying := false, accumulator := 0,
    angle := ((defaultParams.startingAngle : ℝ) * π) / 180, velocity := 0 }

/-- The clamp `Math.max(params.timeInterval, 0.001)` keeps the fixed step
strictly positive. -/
theorem dtOf_pos (p : SimulatorParams) : 0 < dtOf p :=
  lt_of_lt_of_le (by norm_num) (le_max_right p.timeInterval (1 / 1000))

/-- One frame of the `draw` loop, restricted to its physics content: when
paused, nothing is accumulated and the kinematic state is untouched; when
playing, the frame time joins the accumulator, the fixed-step loop runs,
and the results are written to the local state and mirrored into
`params.currentAngle` / `params.currentVelocity`. -/
def advance (w h frameTime : ℚ) (s : SimState) : SimState :=
  if s.isPlaying then
    let r := advanceLoop (dtOf s.params) (dtOf_pos s.params)
      (stepOnce s.params w h) (s.accumulator + frameTime) (s.angle, s.velocity)
    { s with
      accumulator := r.1
      angle := r.2.fst
      velocity := r.2.snd
      params := { s.params with currentAngle := r.2.fst, currentVelocity := r.2.snd } }
  else s

end

/-- Exit equation of the fixed-step loop: once the accumulator is below the
fixed step, the loop stops and returns the state unchanged. -/
theorem advanceLoop_exit (dt : ℚ) (hdt : 0 < dt) (step : ℝ × ℝ → ℝ × ℝ)
    (acc : ℚ) (s : ℝ × ℝ) (h : acc < dt) :
    advanceLoop dt hdt step acc s = (acc, s) := by
  rw [advanceLoop]
  simp [not_le.mpr h]

/-- Iteration equation of the fixed-step loop: while the accumulator is at
least the fixed step, one sub-step runs and `dt` is removed. -/
theorem advanceLoop_iter (dt : ℚ) (hdt : 0 < dt) (step : ℝ × ℝ → ℝ × ℝ)
    (acc : ℚ) (s : ℝ × ℝ) (h : dt ≤ acc) :
    advanceLoop dt hdt step acc s = advanceLoop dt hdt step (acc - dt) (step s) := by
  rw [advanceLoop]
  simp [h]

/-- Closed form of the fixed-step loop for a non-negative starting
accumulator: it performs exactly `Nat.floor (acc / dt)` sub-steps and
removes `dt` from the accumulator for each of them. -/
theorem advanceLoop_closed (dt : ℚ) (hdt : 0 < dt) (step : ℝ × ℝ → ℝ × ℝ) (n : ℕ) :
    ∀ acc : ℚ, ∀ s : ℝ × ℝ, 0 ≤ acc → Nat.floor (acc / dt) = n →
      advanceLoop dt hdt step acc s = (acc - (n : ℚ) * dt, step^[n] s) := by
  induction n with
  | zero =>
    intro acc s hacc hn
    have hlt : acc / dt < 1 := by
      have := Nat.lt_floor_add_one (acc / dt)
      rw [hn] at this
      simpa using this
    have : acc < dt := by
      calc acc = acc / dt * dt := by field_simp
      _ < 1 * dt := by
        exact mul_lt_mul_of_pos_right hlt hdt
      _ = dt := one_mul dt
    rw [advanceLoop_exit dt hdt step acc s this]
    simp
  | succ m ih =>
    intro acc s hacc hn
    have h1 : (1 : ℚ) ≤ acc / dt := by
      have : 1 ≤ Nat.floor (acc / dt) := by omega
      calc (1 : ℚ) = ((1 : ℕ) : ℚ) := by norm_num
      _ ≤ acc / dt := (Nat.le_floor_iff (by positivity)).mp this
    have hge : dt ≤ acc := by
      have := mul_le_mul_of_nonneg_right h1 (le_of_lt hdt)
      rwa [one_mul, div_mul_cancel₀ acc (ne_of_gt hdt)] at this
    have hfloor : Nat.floor ((acc - dt) / dt) = m := by
      have h2 : (acc - dt) / dt = acc / dt - 1 := by
        rw [sub_div, div_self (ne_of_gt hdt)]
      rw [h2]
      have := Nat.floor_sub_nat (acc / dt) 1
      rw [hn] at this
      simpa using this
    rw [advanceLoop_iter dt hdt step acc s hge,
      ih (acc - dt) (step s) (by linarith) hfloor]
    simp only [Prod.mk.injEq]
    constructor
    · push_cast
      ring
    · rw [Function.iterate_succ_apply]

/-- Bounds on the accumulator left by the fixed-step loop: starting from a
non-negative accumulator it always exits with a value in [0, dt). -/
theorem advanceLoop_acc_bounds (dt : ℚ) (hdt : 0 < dt) (step : ℝ × ℝ → ℝ × ℝ)
    (acc : ℚ) (s : ℝ × ℝ) (hacc : 0 ≤ acc) :
    0 ≤ (advanceLoop dt hdt step acc s).1 ∧ (advanceLoop dt hdt step acc s).1 < dt := by
  rw [advanceLoop_closed dt hdt step (Nat.floor (acc / dt)) acc s hacc rfl]
  have hle : ((Nat.floor (acc / dt) : ℚ)) ≤ acc / dt := Nat.floor_le (by positivity)
  have hlt : acc / dt < (Nat.floor (acc / dt) : ℚ) + 1 := Nat.lt_floor_add_one (acc / dt)
  have hdiv : acc / dt * dt = acc := div_mul_cancel₀ acc (ne_of_gt hdt)
  constructor
  · have h1 : ((Nat.floor (acc / dt) : ℚ)) * dt ≤ acc := by
      calc ((Nat.floor (acc / dt) : ℚ)) * dt ≤ acc / dt * dt :=
        mul_le_mul_of_nonneg_right hle (le_of_lt hdt)
      _ = acc := hdiv
    simpa using h1
  · have h2 : acc < ((Nat.floor (acc / dt) : ℚ) + 1) * dt := by
      calc acc = acc / dt * dt := hdiv.symm
      _ < ((Nat.floor (acc / dt) : ℚ) + 1) * dt := mul_lt_mul_of_pos_right hlt hdt
    have : acc - (Nat.floor (acc / dt) : ℚ) * dt < dt := by nlinarith
    simpa using this

/-- Spec-side acceleration of the damped pendulum (section 4.2):
`acceleration(theta, omega) = (-gravity / effectiveLength) * sin(theta) - damping * omega`. -/
noncomputable def specAccelerationFn (g L d : ℚ) (theta omega : ℝ) : ℝ :=
  (-(g : ℝ) / (L : ℝ)) * Real.sin theta - (d : ℝ) * omega

/-- Spec-side velocity half-step of a semi-implicit Euler step: the
velocity absorbs the undamped acceleration evaluated at the state's
current angle; the angle is untouched. -/
noncomputable def velocityUpdate (g L : ℚ) (e : ℝ) (y : ℝ × ℝ) : ℝ × ℝ :=
  (y.1, y.2 + (-(g : ℝ) / (L : ℝ)) * Real.sin y.1 * e)

/-- Spec-side angle half-step: the angle moves with whatever velocity the
state currently holds; the velocity is untouched. Composing it after
`velocityUpdate` gives semi-implicit Euler (the angle sees the updated
velocity); composing it before would give naive Euler. -/
noncomputable def angleUpdate (e : ℝ) (y : ℝ × ℝ) : ℝ × ℝ :=
  (y.1 + y.2 * e, y.2)

/-- Textbook RK4 for a first-order system on the plane: four stage slopes
with midpoint / endpoint estimates over the step and the weighted
combination `y += (e/6) * (k1 + 2 k2 + 2 k3 + k4)`. -/
noncomputable def rk4Generic (f : ℝ × ℝ → ℝ × ℝ) (e : ℝ) (y : ℝ × ℝ) : ℝ × ℝ :=
  let k1 := f y
  let k2 := f (y.1 + e / 2 * k1.1, y.2 + e / 2 * k1.2)
  let k3 := f (y.1 + e / 2 * k2.1, y.2 + e / 2 * k2.2)
  let k4 := f (y.1 + e * k3.1, y.2 + e * k3.2)
  (y.1 + e / 6 * (k1.1 + 2 * k2.1 + 2 * k3.1 + k4.1),
   y.2 + e / 6 * (k1.2 + 2 * k2.2 + 2 * k3.2 + k4.2))

/-- The pendulum as a first-order system on (angle, velocity): the angle's
rate of change is the velocity and the velocity's rate is the spec's
acceleration. -/
noncomputable def pendulumField (g L d : ℚ) (y : ℝ × ℝ) : ℝ × ℝ :=
  (y.2, specAccelerationFn g L d y.1 y.2)

/-- Claim C2: the per-step integration method is a pure function of
damping. With damping = 0 a sub-step is semi-implicit Euler, obtained by
running the velocity half-step first and the angle half-step second — so
the angle increment uses the new velocity, which the second conjunct
states directly. With damping different from 0 a sub-step is the textbook
RK4 applied to the pendulum vector field. Both use the effective step
`dt * simulationSpeed`. -/
theorem C2_method_dispatch_pure_in_damping (p q : SimulatorParams) (w h : ℚ) (s : ℝ × ℝ)
    (hp0 : p.damping = 0) (hq0 : q.damping ≠ 0) :
    (stepOnce p w h s =
       angleUpdate ((dtOf p * speedOf p : ℚ) : ℝ)
         (velocityUpdate (gravityFloored p.gravity) (scaledLength w h p.length)
           ((dtOf p * speedOf p : ℚ) : ℝ) s) ∧
     (stepOnce p w h s).1 = s.1 + (stepOnce p w h s).2 * ((dtOf p * speedOf p : ℚ) : ℝ)) ∧
    stepOnce q w h s =
      rk4Generic
        (pendulumField (gravityFloored q.gravity) (scaledLength w h q.length) q.damping)
        ((dtOf q * speedOf q : ℚ) : ℝ) s := by
  refine ⟨⟨?_, ?_⟩, ?_⟩
  · simp only [stepOnce, if_pos hp0, eulerStep, angleUpdate, velocityUpdate]
  · simp only [stepOnce, if_pos hp0, eulerStep]
  · simp only [stepOnce, if_neg hq0, rk4Step, rk4Generic, pendulumField,
      acceleration, specAccelerationFn]
    simp only [Prod.mk.injEq]
    constructor
    · ring_nf
    · ring_nf

/-- Witness for C2 at the default parameters (Euler branch) and at the
defaults with damping 1/2 (RK4 branch), canvas 500 by 500, state (0, 0). -/
theorem C2_method_dispatch_witness :
    (stepOnce defaultParams 500 500 ((0 : ℝ), 0) =
       angleUpdate ((dtOf defaultParams * speedOf defaultParams : ℚ) : ℝ)
         (velocityUpdate (gravityFloored defaultParams.gravity)
           (scaledLength 500 500 defaultParams.length)
           ((dtOf defaultParams * speedOf defaultParams : ℚ) : ℝ) ((0 : ℝ), 0)) ∧
     (stepOnce defaultParams 500 500 ((0 : ℝ), 0)).1 =
       ((0 : ℝ), (0 : ℝ)).1 + (stepOnce defaultParams 500 500 ((0 : ℝ), 0)).2 *
         ((dtOf defaultParams * speedOf defaultParams : ℚ) : ℝ)) ∧
    stepOnce { defaultParams with damping := 1 / 2 } 500 500 ((0 : ℝ), 0) =
      rk4Generic
        (pendulumField (gravityFloored { defaultParams with damping := 1 / 2 }.gravity)
          (scaledLength 500 500 { defaultParams with damping := 1 / 2 }.length)
          { defaultParams with damping := 1 / 2 }.damping)
        ((dtOf { defaultParams with damping := 1 / 2 }
           * speedOf { defaultParams with damping := 1 / 2 } : ℚ) : ℝ) ((0 : ℝ), 0) :=
  C2_method_dispatch_pure_in_damping defaultParams { defaultParams with damping := 1 / 2 }
    500 500 ((0 : ℝ), 0) rfl (by norm_num [defaultParams])

/-- When the play flag is down, a frame leaves the whole simulator state
untouched (no physics time is accumulated, no integration runs). -/
theorem advance_paused_eq (w h ft : ℚ) (s : SimState) (hp : s.isPlaying = false) :
    advance w h ft s = s := by
  simp [advance, hp]

/-- When the play flag is up, a frame adds the frame time to the
accumulator and runs exactly `Nat.floor` of accumulated-time-over-dt
sub-steps, writing the integrated pair into the local state and the
parameter mirrors. -/
theorem advance_playing_eq (w h ft : ℚ) (s : SimState) (hp : s.isPlaying = true) (n : ℕ)
    (hacc : 0 ≤ s.accumulator + ft)
    (hn : Nat.floor ((s.accumulator + ft) / dtOf s.params) = n) :
    advance w h ft s =
      { s with
        accumulator := s.accumulator + ft - (n : ℚ) * dtOf s.params
        angle := ((stepOnce s.params w h)^[n] (s.angle, s.velocity)).1
        velocity := ((stepOnce s.params w h)^[n] (s.angle, s.velocity)).2
        params := { s.params with
          currentAngle := ((stepOnce s.params w h)^[n] (s.angle, s.velocity)).1
          currentVelocity := ((stepOnce s.params w h)^[n] (s.angle, s.velocity)).2 } } := by
  rw [advance]
  rw [advanceLoop_closed (dtOf s.params) (dtOf_pos s.params) (stepOnce s.params w h) n
    (s.accumulator + ft) (s.angle, s.velocity) hacc hn]
  simp [hp]

/-- Claim C5: every parameter write clamps each minimum-covered field to
its documented minimum (a low value is raised silently, the written value
is the max of the requested one and the minimum), `startingAngle` passes
through unclamped, and in particular writing length = -5 yields length 1. -/
theorem C5_clamping_on_every_update (prev : SimulatorParams) (u : ParamUpdate) :
    (MIN_SAFE_length ≤ (setValidatedParams prev u).length ∧
     MIN_SAFE_mass ≤ (setValidatedParams prev u).mass ∧
     MIN_SAFE_gravity ≤ (setValidatedParams prev u).gravity ∧
     MIN_SAFE_damping ≤ (setValidatedParams prev u).damping ∧
     MIN_SAFE_timeInterval ≤ (setValidatedParams prev u).timeInterval ∧
     MIN_SAFE_simulationSpeed ≤ (setValidatedParams prev u).simulationSpeed) ∧
    (setValidatedParams prev u).length = max (u.length.getD prev.length) MIN_SAFE_length ∧
    (setValidatedParams prev u).startingAngle = u.startingAngle.getD prev.startingAngle ∧
    (setValidatedParams prev { noUpdate with length := some (-5) }).length = 1 := by
  refine ⟨⟨le_max_right _ _, le_max_right _ _, le_max_right _ _, le_max_right _ _,
    le_max_right _ _, le_max_right _ _⟩, rfl, rfl, ?_⟩
  simp [setValidatedParams, noUpdate, MIN_SAFE_length]
  norm_num

/-- Claim C8: reset is idempotent, always stops play, zeroes the
accumulator, restores the documented default parameters and re-derives the
kinematic state as the default starting angle in radians with zero
velocity, regardless of the current state. -/
theorem C8_reset_idempotent_and_defaults (s : SimState) :
    resetSim (resetSim s) = resetSim s ∧
    (resetSim s).isPlaying = false ∧
    (resetSim s).accumulator = 0 ∧
    (resetSim s).params.length = 100 ∧
    (resetSim s).params.mass = 1 ∧
    (resetSim s).params.startingAngle = 45 ∧
    (resetSim s).params.gravity = 9.81 ∧
    (resetSim s).params.damping = 0 ∧
    (resetSim s).params.timeInterval = 1 / 100 ∧
    (resetSim s).params.simulationSpeed = 30 ∧
    (resetSim s).angle = ((45 : ℝ) * π) / 180 ∧
    (resetSim s).velocity = 0 := by
  refine ⟨rfl, rfl, rfl, rfl, rfl, rfl, rfl, rfl, rfl, rfl, ?_, rfl⟩
  show ((defaultParams.startingAngle : ℝ) * π) / 180 = ((45 : ℝ) * π) / 180
  norm_num [defaultParams]

/-- Counterexample to claim C9 as stated: a pure parameter write (mass 2,
no kinematic field) changes the kinematic state. From angle 1 and velocity
1 it resets the velocity to 0 and the angle to the starting angle in
radians (pi/4, which is below 1), because the physics effect lists the
params object in its dependency array and re-runs its initialization. -/
theorem C9_claim_false_on_parameter_write :
    (setSim { noUpdate with mass := some 2 }
        { params := defaultParams, isPlaying := true, accumulator := 0,
          angle := 1, velocity := 1 }).velocity ≠ 1 ∧
    (setSim { noUpdate with mass := some 2 }
        { params := defaultParams, isPlaying := true, accumulator := 0,
          angle := 1, velocity := 1 }).angle ≠ 1 := by
  constructor
  · show (0 : ℝ) ≠ 1
    norm_num
  · show (((setValidatedParams defaultParams
      { noUpdate with mass := some 2 }).startingAngle : ℝ) * π) / 180 ≠ 1
    have h45 : (setValidatedParams defaultParams
        { noUpdate with mass := some 2 }).startingAngle = 45 := rfl
    rw [h45]
    have hc : ((45 : ℚ) : ℝ) = 45 := by norm_num
    rw [hc]
    intro heq
    have hpi : π < 3.15 := Real.pi_lt_d2
    nlinarith [heq, hpi]

/-- Claim C9 amended: the kinematic state is initialized from the starting
angle on construction and on every reset; play and pause leave it
unchanged; a frame received while paused changes neither the kinematic
state nor the accumulator; but besides advance() and reset(), every
parameter write also changes it — the write remounts the integration
effect, resetting the angle to the (possibly new) starting angle in
radians, the velocity to 0 and the accumulator to 0, while keeping the
play flag. -/
theorem C9_amended_kinematics_frame (s : SimState) (u : ParamUpdate)
    (p : SimulatorParams) (w h ft : ℚ) (hpause : s.isPlaying = false) :
    ((initEngine p).angle = ((p.startingAngle : ℝ) * π) / 180 ∧
     (initEngine p).velocity = 0) ∧
    ((resetSim s).angle = ((defaultParams.startingAngle : ℝ) * π) / 180 ∧
     (resetSim s).velocity = 0) ∧
    ((playSim s).angle = s.angle ∧ (playSim s).velocity = s.velocity) ∧
    ((pauseSim s).angle = s.angle ∧ (pauseSim s).velocity = s.velocity) ∧
    ((setSim u s).angle
        = (((setValidatedParams s.params u).startingAngle : ℝ) * π) / 180 ∧
     (setSim u s).velocity = 0 ∧
     (setSim u s).accumulator = 0 ∧
     (setSim u s).isPlaying = s.isPlaying) ∧
    advance w h ft s = s :=
  ⟨⟨rfl, rfl⟩, ⟨rfl, rfl⟩, ⟨rfl, rfl⟩, ⟨rfl, rfl⟩, ⟨rfl, rfl, rfl, rfl⟩,
    advance_paused_eq w h ft s hpause⟩

/-- Witness for the amended C9 at a concrete state and update. -/
theorem C9_amended_kinematics_frame_witness :
    (((initEngine defaultParams).angle
        = ((defaultParams.startingAngle : ℝ) * π) / 180 ∧
      (initEngine defaultParams).velocity = 0) ∧
     ((resetSim (initEngine defaultParams)).angle
        = ((defaultParams.startingAngle : ℝ) * π) / 180 ∧
      (resetSim (initEngine defaultParams)).velocity = 0) ∧
     ((playSim (initEngine defaultParams)).angle = (initEngine defaultParams).angle ∧
      (playSim (initEngine defaultParams)).velocity = (initEngine defaultParams).velocity) ∧
     ((pauseSim (initEngine defaultParams)).angle = (initEngine defaultParams).angle ∧
      (pauseSim (initEngine defaultParams)).velocity = (initEngine defaultParams).velocity) ∧
     ((setSim noUpdate (initEngine defaultParams)).angle
        = (((setValidatedParams (initEngine defaultParams).params noUpdate).startingAngle : ℝ)
            * π) / 180 ∧
      (setSim noUpdate (initEngine defaultParams)).velocity = 0 ∧
      (setSim noUpdate (initEngine defaultParams)).accumulator = 0 ∧
      (setSim noUpdate (initEngine defaultParams)).isPlaying
        = (initEngine defaultParams).isPlaying) ∧
     advance 500 500 (1 / 10) (initEngine defaultParams) = initEngine defaultParams) :=
  C9_amended_kinematics_frame (initEngine defaultParams) noUpdate defaultParams
    500 500 (1 / 10) rfl

/-- Claim C6: for a frame with non-negative frame time, starting from a
state whose accumulator satisfies the invariant (non-negative and below
the stored time interval) and whose stored time interval respects the
store minimum, the post-frame accumulator is again non-negative and
strictly below the time interval. -/
theorem C6_accumulator_bounds (w h ft : ℚ) (s : SimState)
    (hti : MIN_SAFE_timeInterval ≤ s.params.timeInterval)
    (hft : 0 ≤ ft) (h0 : 0 ≤ s.accumulator)
    (h1 : s.accumulator < s.params.timeInterval) :
    0 ≤ (advance w h ft s).accumulator ∧
      (advance w h ft s).accumulator < s.params.timeInterval := by
  have hdt : dtOf s.params = s.params.timeInterval := by
    rw [dtOf]
    refine max_eq_left ?_
    calc (1 / 1000 : ℚ) = MIN_SAFE_timeInterval := by rw [MIN_SAFE_timeInterval]
    _ ≤ s.params.timeInterval := hti
  cases hp : s.isPlaying with
  | false =>
    rw [advance_paused_eq w h ft s hp]
    exact ⟨h0, h1⟩
  | true =>
    have hb := advanceLoop_acc_bounds (dtOf s.params) (dtOf_pos s.params)
      (stepOnce s.params w h) (s.accumulator + ft) (s.angle, s.velocity) (by linarith)
    have hadv : (advance w h ft s).accumulator =
        (advanceLoop (dtOf s.params) (dtOf_pos s.params) (stepOnce s.params w h)
          (s.accumulator + ft) (s.angle, s.velocity)).1 := by
      simp [advance, hp]
    rw [hadv]
    exact ⟨hb.1, lt_of_lt_of_eq hb.2 hdt⟩

/-- Witness for C6 at the default state with a 0.1 second frame. -/
theorem C6_accumulator_bounds_witness :
    0 ≤ (advance 500 500 (1 / 10) (playSim (initEngine defaultParams))).accumulator ∧
      (advance 500 500 (1 / 10) (playSim (initEngine defaultParams))).accumulator
        < (playSim (initEngine defaultParams)).params.timeInterval :=
  C6_accumulator_bounds 500 500 (1 / 10) (playSim (initEngine defaultParams))
    (by norm_num [MIN_SAFE_timeInterval, playSim, initEngine, defaultParams])
    (by norm_num) (le_refl 0)
    (by norm_num [playSim, initEngine, defaultParams])

/-- Claim C7: the fixed-step while loop terminates for every non-negative
accumulated frame time: it performs exactly `Nat.floor (acc / dt)`
iterations, each iteration strictly decreases the accumulator by the fixed
step, and the fixed step the visualization uses is bounded away from zero
by the minimum-safe clamp (at least the store minimum 0.001). -/
theorem C7_loop_terminates (dt : ℚ) (hdt : 0 < dt) (step : ℝ × ℝ → ℝ × ℝ)
    (acc : ℚ) (s : ℝ × ℝ) (p : SimulatorParams)
    (hacc : 0 ≤ acc) (hge : dt ≤ acc) :
    advanceLoop dt hdt step acc s =
      (acc - (Nat.floor (acc / dt) : ℚ) * dt, step^[Nat.floor (acc / dt)] s) ∧
    advanceLoop dt hdt step acc s = advanceLoop dt hdt step (acc - dt) (step s) ∧
    MIN_SAFE_timeInterval ≤ dtOf p := by
  refine ⟨advanceLoop_closed dt hdt step (Nat.floor (acc / dt)) acc s hacc rfl,
    advanceLoop_iter dt hdt step acc s hge, ?_⟩
  rw [MIN_SAFE_timeInterval, dtOf]
  exact le_max_right p.timeInterval (1 / 1000)

/-- Witness for C7 at a concrete loop run (dt 0.01, accumulator 0.1). -/
theorem C7_loop_terminates_witness :
    advanceLoop (1 / 100) (by norm_num) id (1 / 10) ((0 : ℝ), (0 : ℝ)) =
      (1 / 10 - (Nat.floor ((1 / 10 : ℚ) / (1 / 100)) : ℚ) * (1 / 100),
       id^[Nat.floor ((1 / 10 : ℚ) / (1 / 100))] ((0 : ℝ), (0 : ℝ))) ∧
    advanceLoop (1 / 100) (by norm_num) id (1 / 10) ((0 : ℝ), (0 : ℝ)) =
      advanceLoop (1 / 100) (by norm_num) id (1 / 10 - 1 / 100) (id ((0 : ℝ), (0 : ℝ))) ∧
    MIN_SAFE_timeInterval ≤ dtOf defaultParams :=
  C7_loop_terminates (1 / 100) (by norm_num) id (1 / 10) ((0 : ℝ), (0 : ℝ))
    defaultParams (by norm_num) (by norm_num)

/-- The independent computation of the section-8 scenario (claim C3): one
semi-implicit Euler sub-step with gravity 9.81, the pendulum length the
500 by 500 canvas produces for the default length (200), and effective
step 0.01 * 30 = 0.3, velocity updated before the angle. -/
noncomputable def specC3Step (s : ℝ × ℝ) : ℝ × ℝ :=
  let v := s.2 + (-(9.81 : ℝ) / 200) * Real.sin s.1 * (3 / 10)
  (s.1 + v * (3 / 10), v)

/-- On the default parameters and a 500 by 500 canvas, one sub-step of the
visualization is the scenario's Euler step. -/
theorem stepOnce_default_500 : stepOnce defaultParams 500 500 = specC3Step := by
  funext s
  simp only [stepOnce, defaultParams, eulerStep, specC3Step, gravityFloored,
    scaledLength, dtOf, speedOf, if_pos]
  norm_num

/-- Claim C3: from the default parameters, paused, after play and a frame
of 0.1 seconds the engine performs exactly 10 fixed sub-steps (absorbing
the whole 0.1 s, accumulator back to 0), each the scenario's semi-implicit
Euler step of effective size 0.3, and the resulting angle and velocity
equal the independently computed iteration of the same formulas exactly. -/
theorem C3_scenario_ten_euler_substeps :
    (advance 500 500 (1 / 10) (playSim (initEngine defaultParams))).accumulator = 0 ∧
    ((advance 500 500 (1 / 10) (playSim (initEngine defaultParams))).angle,
     (advance 500 500 (1 / 10) (playSim (initEngine defaultParams))).velocity) =
      specC3Step^[10] (((45 : ℝ) * π) / 180, 0) := by
  have h10 : Nat.floor (((playSim (initEngine defaultParams)).accumulator + 1 / 10) /
      dtOf (playSim (initEngine defaultParams)).params) = 10 := by
    show Nat.floor (((0 : ℚ) + 1 / 10) / dtOf defaultParams) = 10
    rw [dtOf]
    norm_num [defaultParams]
  rw [advance_playing_eq 500 500 (1 / 10) (playSim (initEngine defaultParams)) rfl 10
    (by norm_num [playSim, initEngine]) h10]
  constructor
  · show (0 : ℚ) + 1 / 10 - (10 : ℚ) * dtOf defaultParams = 0
    rw [dtOf]
    norm_num [defaultParams]
  · show (((stepOnce defaultParams 500 500)^[10] ((((45 : ℚ) : ℝ) * π) / 180, 0)).1,
      ((stepOnce defaultParams 500 500)^[10] ((((45 : ℚ) : ℝ) * π) / 180, 0)).2) =
        specC3Step^[10] (((45 : ℝ) * π) / 180, 0)
    rw [stepOnce_default_500]
    have hcast : ((((45 : ℚ) : ℝ) * π) / 180, (0 : ℝ)) = (((45 : ℝ) * π) / 180, (0 : ℝ)) := by
      norm_num
    rw [hcast]

/-- Counterexample to claim C1 as stated: at the default parameters on a
500 by 500 canvas (angle pi/2, velocity 0), the velocity produced by one
sub-step differs from the velocity the claim's divisor prescribes, namely
gravity divided by the stored length converted by dividing by 100 (100 cm
giving an effective length of 1, unchanged by any floor at a small
positive constant at or below 1). -/
theorem C1_claim_false_at_default_canvas :
    (stepOnce defaultParams 500 500 ((π / 2 : ℝ), 0)).2 ≠
      0 + (-(9.81 : ℝ) / ((100 : ℝ) / 100)) * Real.sin (π / 2) * ((3 : ℝ) / 10) := by
  rw [stepOnce_default_500]
  simp only [specC3Step, Real.sin_pi_div_two]
  norm_num

/-- Claim C1 amended: in every integration sub-step the acceleration term
divides gravity by the canvas-scaled length
`max ((length / 200) * (min width height * 0.8)) 1` (pixels, floored at
1), not by a canvas-independent length / 100; gravity is re-floored at its
minimum 0.01 inside each step via `max gravity 0.01` even when the stored
parameter already satisfies the minimum. -/
theorem C1_amended_canvas_divisor (p : SimulatorParams) (w h : ℚ) (theta omega : ℝ)
    (hd0 : p.damping = 0) (q : SimulatorParams) (hq : q.damping ≠ 0) :
    (stepOnce p w h (theta, omega)).2 =
      omega + (-((max p.gravity (1 / 100) : ℚ) : ℝ) /
        ((max ((p.length / 200) * (min w h * (8 / 10))) 1 : ℚ) : ℝ)) * Real.sin theta *
        ((dtOf p * speedOf p : ℚ) : ℝ) ∧
    stepOnce q w h (theta, omega) =
      rk4Step (max q.gravity (1 / 100)) (max ((q.length / 200) * (min w h * (8 / 10))) 1)
        q.damping (dtOf q * speedOf q) (theta, omega) := by
  constructor
  · simp only [stepOnce, if_pos hd0, eulerStep, gravityFloored, scaledLength]
  · simp only [stepOnce, if_neg hq, gravityFloored, scaledLength]

/-- Witness for the amended C1 at the default parameters (Euler branch)
and at the defaults with damping 1/2 (RK4 branch), canvas 500 by 500. -/
theorem C1_amended_canvas_divisor_witness :
    (stepOnce defaultParams 500 500 ((0 : ℝ), 0)).2 =
      0 + (-((max defaultParams.gravity (1 / 100) : ℚ) : ℝ) /
        ((max ((defaultParams.length / 200) * (min 500 500 * (8 / 10))) 1 : ℚ) : ℝ)) *
        Real.sin 0 * ((dtOf defaultParams * speedOf defaultParams : ℚ) : ℝ) ∧
    stepOnce { defaultParams with damping := 1 / 2 } 500 500 ((0 : ℝ), 0) =
      rk4Step (max { defaultParams with damping := 1 / 2 }.gravity (1 / 100))
        (max (({ defaultParams with damping := 1 / 2 }.length / 200) * (min 500 500 * (8 / 10))) 1)
        { defaultParams with damping := 1 / 2 }.damping
        (dtOf { defaultParams with damping := 1 / 2 }
          * speedOf { defaultParams with damping := 1 / 2 }) ((0 : ℝ), 0) :=
  C1_amended_canvas_divisor defaultParams 500 500 0 0 rfl
    { defaultParams with damping := 1 / 2 } (by norm_num [defaultParams])

/-- On the default parameters and a 1000 by 1000 canvas, one sub-step
divides gravity by 400 pixels (twice the 500 by 500 divisor). -/
theorem stepOnce_default_1000 (s : ℝ × ℝ) :
    stepOnce defaultParams 1000 1000 s =
      (s.1 + (s.2 + (-(9.81 : ℝ) / 400) * Real.sin s.1 * (3 / 10)) * (3 / 10),
       s.2 + (-(9.81 : ℝ) / 400) * Real.sin s.1 * (3 / 10)) := by
  simp only [stepOnce, defaultParams, eulerStep, gravityFloored,
    scaledLength, dtOf, speedOf, if_pos]
  norm_num

/-- Claim C10: the integrated trajectory depends on the canvas render
props: from the same default parameters and the same single-frame time
sequence, runs on a 500 by 500 and on a 1000 by 1000 canvas produce
different angles and different velocities, because each step divides
gravity by the canvas-scaled pixel length. -/
theorem C10_trajectory_depends_on_canvas :
    (advance 500 500 (1 / 100) (playSim (initEngine defaultParams))).angle ≠
      (advance 1000 1000 (1 / 100) (playSim (initEngine defaultParams))).angle ∧
    (advance 500 500 (1 / 100) (playSim (initEngine defaultParams))).velocity ≠
      (advance 1000 1000 (1 / 100) (playSim (initEngine defaultParams))).velocity := by
  have h1 : Nat.floor (((playSim (initEngine defaultParams)).accumulator + 1 / 100) /
      dtOf (playSim (initEngine defaultParams)).params) = 1 := by
    show Nat.floor (((0 : ℚ) + 1 / 100) / dtOf defaultParams) = 1
    rw [dtOf]
    norm_num [defaultParams]
  have hacc : (0 : ℚ) ≤ (playSim (initEngine defaultParams)).accumulator + 1 / 100 := by
    norm_num [playSim, initEngine]
  have a500 : (advance 500 500 (1 / 100) (playSim (initEngine defaultParams))).angle =
      ((((45 : ℚ) : ℝ) * π) / 180) +
        (0 + (-(9.81 : ℝ) / 200) * Real.sin ((((45 : ℚ) : ℝ) * π) / 180) * (3 / 10)) * (3 / 10) := by
    rw [advance_playing_eq 500 500 (1 / 100) (playSim (initEngine defaultParams)) rfl 1 hacc h1]
    show ((stepOnce defaultParams 500 500)^[1] (((((45 : ℚ) : ℝ) * π) / 180), (0 : ℝ))).1 = _
    rw [Function.iterate_one, stepOnce_default_500]
    rfl
  have v500 : (advance 500 500 (1 / 100) (playSim (initEngine defaultParams))).velocity =
      0 + (-(9.81 : ℝ) / 200) * Real.sin ((((45 : ℚ) : ℝ) * π) / 180) * (3 / 10) := by
    rw [advance_playing_eq 500 500 (1 / 100) (playSim (initEngine defaultParams)) rfl 1 hacc h1]
    show ((stepOnce defaultParams 500 500)^[1] (((((45 : ℚ) : ℝ) * π) / 180), (0 : ℝ))).2 = _
    rw [Function.iterate_one, stepOnce_default_500]
    rfl
  have a1000 : (advance 1000 1000 (1 / 100) (playSim (initEngine defaultParams))).angle =
      ((((45 : ℚ) : ℝ) * π) / 180) +
        (0 + (-(9.81 : ℝ) / 400) * Real.sin ((((45 : ℚ) : ℝ) * π) / 180) * (3 / 10)) * (3 / 10) := by
    rw [advance_playing_eq 1000 1000 (1 / 100) (playSim (initEngine defaultParams)) rfl 1 hacc h1]
    show ((stepOnce defaultParams 1000 1000)^[1] (((((45 : ℚ) : ℝ) * π) / 180), (0 : ℝ))).1 = _
    rw [Function.iterate_one, stepOnce_default_1000]
  have v1000 : (advance 1000 1000 (1 / 100) (playSim (initEngine defaultParams))).velocity =
      0 + (-(9.81 : ℝ) / 400) * Real.sin ((((45 : ℚ) : ℝ) * π) / 180) * (3 / 10) := by
    rw [advance_playing_eq 1000 1000 (1 / 100) (playSim (initEngine defaultParams)) rfl 1 hacc h1]
    show ((stepOnce defaultParams 1000 1000)^[1] (((((45 : ℚ) : ℝ) * π) / 180), (0 : ℝ))).2 = _
    rw [Function.iterate_one, stepOnce_default_1000]
  have hsin : 0 < Real.sin ((((45 : ℚ) : ℝ) * π) / 180) := by
    have hq : ((((45 : ℚ) : ℝ) * π) / 180) = π / 4 := by
      push_cast
      ring
    rw [hq, Real.sin_pi_div_four]
    positivity
  constructor
  · rw [a500, a1000]
    intro heq
    linarith [hsin]
  · rw [v500, v1000]
    intro heq
    linarith [hsin]

/-- A JavaScript number for the numeric-fault analysis of the integration
loop body: either NaN or an ordinary value. The model covers the
NaN-propagation fragment of JS arithmetic that the loop exercises: every
operation below is total (JS arithmetic never throws, so the loop's
try/catch cannot fire on a numeric fault) and returns NaN as soon as an
operand is NaN, as `+`, `*`, `/`, unary minus, `Math.sin` and `Math.max`
all do in JS. Ordinary-value division is modelled only away from a zero
divisor (the instances evaluated here divide by 200). -/
inductive JsNum where
  | nan : JsNum
  | val : ℝ → JsNum

/-- JS `+` on the modelled fragment. -/
noncomputable def JsNum.add : JsNum → JsNum → JsNum
  | JsNum.val a, JsNum.val b => JsNum.val (a + b)
  | _, _ => JsNum.nan

/-- JS `*` on the modelled fragment. -/
noncomputable def JsNum.mul : JsNum → JsNum → JsNum
  | JsNum.val a, JsNum.val b => JsNum.val (a * b)
  | _, _ => JsNum.nan

/-- JS `/` on the modelled fragment. -/
noncomputable def JsNum.div : JsNum → JsNum → JsNum
  | JsNum.val a, JsNum.val b => JsNum.val (a / b)
  | _, _ => JsNum.nan

/-- JS unary minus on the modelled fragment. -/
noncomputable def JsNum.neg : JsNum → JsNum
  | JsNum.val a => JsNum.val (-a)
  | _ => JsNum.nan

/-- JS `Math.sin` on the modelled fragment. -/
noncomputable def JsNum.sine : JsNum → JsNum
  | JsNum.val a => JsNum.val (Real.sin a)
  | _ => JsNum.nan

/-- JS `Math.max` on the modelled fragment (NaN if either argument is). -/
noncomputable def JsNum.maxJs : JsNum → JsNum → JsNum
  | JsNum.val a, JsNum.val b => JsNum.val (max a b)
  | _, _ => JsNum.nan

/-- The Euler-branch loop body under JS number semantics: the gravity
refloor `Math.max(params.gravity, 0.01)`, then
`currentVelocity += (-gravity / scaledLength) * Math.sin(currentAngle) * dt * simulationSpeed`
and `currentAngle += currentVelocity * dt * simulationSpeed` (with `eff`
standing for `dt * simulationSpeed`); returns (new angle, new velocity). -/
noncomputable def jsEulerStep (gravityParam L eff theta v : JsNum) : JsNum × JsNum :=
  let g := JsNum.maxJs gravityParam (JsNum.val (1 / 100))
  let v2 := JsNum.add v (JsNum.mul (JsNum.mul (JsNum.div (JsNum.neg g) L) (JsNum.sine theta)) eff)
  (JsNum.add theta (JsNum.mul v2 eff), v2)

/-- Claim C4 evidence: a sub-step whose configuration carries NaN gravity
(which the store clamp `Math.max(NaN, 0.01)` lets through as NaN) does not
skip the step and retain the previous valid state, as the claim requires:
the arithmetic is total, no exception reaches the catch, and NaN is
written into both the angle and the velocity, which then differ from the
previous valid values. -/
theorem C4_nan_step_overwrites_state :
    jsEulerStep JsNum.nan (JsNum.val 200) (JsNum.val (3 / 10)) (JsNum.val (π / 4))
        (JsNum.val 0) = (JsNum.nan, JsNum.nan) ∧
    JsNum.maxJs JsNum.nan (JsNum.val (1 / 100)) = JsNum.nan ∧
    JsNum.nan ≠ JsNum.val (π / 4) ∧
    JsNum.nan ≠ JsNum.val 0 := by
  refine ⟨rfl, rfl, ?_, ?_⟩
  · intro hcon
    exact JsNum.noConfusion hcon
  · intro hcon
    exact JsNum.noConfusion hcon
